import Mathlib

/-!
Shallow embedding of the brcdapi request/retry/error-normalization pipeline
(`fos_auth.py`, `brcdapi_rest.py`, `util.py`, `gen_util.py`).

Python JSON-ish dictionaries are modelled by `JVal`; Python `None` is `JVal.null`
(and, where a whole result may be `None`, `Option JVal`).  Python exceptions that
the source can raise past a function boundary are modelled with `Except String`,
the string naming the exception.  Logging is a side effect on the log
collaborator; it is modelled (as an explicit list of emitted lines) only for the
URI-resolution chain, where a claim depends on it.
-/

namespace Brcdapi

/-- JSON-like values: the payload shapes `json.loads` can produce, plus the
dictionaries this library builds itself. -/
inductive JVal where
  | null
  | bool (b : Bool)
  | int (n : Int)
  | str (s : String)
  | list (l : List JVal)
  | obj (kvs : List (String × JVal))

/-- First value bound to `k` in an association list (Python dicts keep insertion
order and have unique keys; lookup returns the first match). -/
def lookupList : List (String × JVal) → String → Option JVal
  | [], _ => none
  | (k', v) :: rest, k => if k' == k then some v else lookupList rest k

/-- Update-or-append for one key, as `dict.update` with a single binding:
an existing key keeps its position, a new key is appended. -/
def updList : List (String × JVal) → String → JVal → List (String × JVal)
  | [], k, v => [(k, v)]
  | (k', v') :: rest, k, v =>
      if k' == k then (k, v) :: rest else (k', v') :: updList rest k v

/-- Python `j.get(k)` on a dict receiver: the bound value, or `null` (Python `None`)
when the key is missing.  On a non-dict receiver the source raises
`AttributeError`; every use below is guarded by a dict check or a
well-formedness hypothesis, so the `null` fallback is never relied on. -/
def dget (j : JVal) (k : String) : JVal :=
  match j with
  | .obj kvs => (lookupList kvs k).getD .null
  | _ => .null

/-- Python `dict.update` with a single binding.  On a non-dict receiver the source
raises `AttributeError`; callers below branch on the dict check first. -/
def dictUpdate (j : JVal) (k : String) (v : JVal) : JVal :=
  match j with
  | .obj kvs => .obj (updList kvs k v)
  | other => other

/-- Python `==` restricted to the comparisons the embedded code performs.
Scalars compare by value, with `bool` equal to its `int` image (Python `bool`
is a subtype of `int`).  The modelled code only ever compares against scalar
constants, so container-against-container equality (structural in Python) is
never consulted; it conservatively returns `false` here. -/
def pyEq (a b : JVal) : Bool :=
  match a, b with
  | .int x, .int y => x == y
  | .str x, .str y => x == y
  | .bool x, .bool y => x == y
  | .bool x, .int y => (if x then (1 : Int) else 0) == y
  | .int x, .bool y => x == (if y then (1 : Int) else 0)
  | .null, .null => true
  | _, _ => false

/-- Contiguous-substring test on character lists. -/
def pyInChars (sub : List Char) : List Char → Bool
  | [] => sub.isEmpty
  | c :: rest => sub.isPrefixOf (c :: rest) || pyInChars sub rest

/-- Python `sub in s` for strings: substring test. -/
def py_in (sub s : String) : Bool :=
  pyInChars sub.toList s.toList

/-- Python `s.split(sep)` for a single-character separator (the only kind the
embedded code uses: `/`, `?`, `;`), over character lists.  Always returns at
least one (possibly empty) group. -/
def pySplitChar (sep : Char) : List Char → List (List Char)
  | [] => [[]]
  | c :: rest =>
      if c == sep then [] :: pySplitChar sep rest
      else
        match pySplitChar sep rest with
        | [] => [[c]]
        | g :: gs => (c :: g) :: gs

/-- Python `s.split(sep)` for a single-character separator. -/
def pySplit (s : String) (sep : Char) : List String :=
  (pySplitChar sep s.toList).map (fun l => ⟨l⟩)

/-- Python `sep.join(parts)`. -/
def pyJoin (sep : String) : List String → String
  | [] => ""
  | [x] => x
  | x :: y :: rest => x ++ sep ++ pyJoin sep (y :: rest)

/-- Python `isinstance(v, int)` view of a `JVal` (a `bool` is an `int` with
value 0 or 1 in Python). -/
def jvalAsPyInt (v : JVal) : Option Int :=
  match v with
  | .int n => some n
  | .bool b => some (if b then 1 else 0)
  | _ => none

/-- Python truthiness, `bool(v)`. -/
def pyTruthy : JVal → Bool
  | .null => false
  | .bool b => b
  | .int n => n != 0
  | .str s => s.length != 0
  | .list l => l.length != 0
  | .obj kvs => kvs.length != 0

/-- Python `k in v` membership: key test on dicts, element test on lists,
substring test on strings.  On other receivers the source raises `TypeError`;
that corner is modelled where the raise matters (`pyInJVal`), and `false` here
is used only where the receiver is known to be a container. -/
def hasKeyB (j : JVal) (k : String) : Bool :=
  match j with
  | .obj kvs => kvs.any (fun p => p.1 == k)
  | .list l => l.any (fun v => pyEq v (.str k))
  | .str s => py_in k s
  | _ => false

/-- Python `k in v` where the receiver may be a non-container (raising
`TypeError`), as in the message-extraction `except` handler. -/
def pyInJVal (k : String) (j : JVal) : Except String Bool :=
  match j with
  | .obj kvs => .ok (kvs.any (fun p => p.1 == k))
  | .list l => .ok (l.any (fun v => pyEq v (.str k)))
  | .str s => .ok (py_in k s)
  | _ => .error "TypeError"

/-- Python `j[k]` with a string key: `KeyError` on a missing dict key,
`TypeError` on a non-dict receiver. -/
def pyIndexS (j : JVal) (k : String) : Except String JVal :=
  match j with
  | .obj kvs =>
      match lookupList kvs k with
      | some v => .ok v
      | none => .error "KeyError"
  | _ => .error "TypeError"

/-- Python `j[n]` with a non-negative integer index: position on lists and
strings (`IndexError` out of range), `KeyError` on string-keyed dicts,
`TypeError` otherwise. -/
def pyIndexNat (j : JVal) (n : Nat) : Except String JVal :=
  match j with
  | .list l =>
      match l.get? n with
      | some v => .ok v
      | none => .error "IndexError"
  | .str s =>
      match s.toList.get? n with
      | some c => .ok (.str (String.singleton c))
      | none => .error "IndexError"
  | .obj _ => .error "KeyError"
  | _ => .error "TypeError"

/-- Is the value a Python dict? -/
def isDict : JVal → Bool
  | .obj _ => true
  | _ => false

/-! HTTP status constants from `util.py`. -/

def HTTP_OK : Int := 200
def HTTP_NO_CONTENT : Int := 204
def HTTP_BAD_REQUEST : Int := 400
def HTTP_FORBIDDEN : Int := 403
def HTTP_NOT_FOUND : Int := 404
def HTTP_REQUEST_TIMEOUT : Int := 408
def HTTP_INT_SERVER_ERROR : Int := 500

/-! Core of `fos_auth.py`: the Normalized Result accessors and classifier. -/

/-- Embeds `fos_auth.create_error(status, reason, msg)`: the standard error object.
A non-list `msg` is wrapped in a singleton list; each message becomes an
`error-message` entry. -/
def create_error (status reason msg : JVal) : JVal :=
  let ml := match msg with
    | .list l => l
    | m => [m]
  .obj [("_raw_data", .obj [("status", status), ("reason", reason)]),
        ("errors", .obj [("error", .list (ml.map (fun b => .obj [("error-message", b)])))])]

/-- Embeds `fos_auth.obj_status(obj)`: `obj[_raw_data].get(status)` when the
`_raw_data` block is present, else `HTTP_OK`.  (With a non-dict `_raw_data`
value the source raises `AttributeError`; theorems restrict to results whose
`_raw_data`, when present, is a dict — the only shape this library produces.) -/
def obj_status (obj : JVal) : JVal :=
  if hasKeyB obj "_raw_data" then dget (dget obj "_raw_data") "status" else .int HTTP_OK

/-- Embeds `fos_auth.obj_reason(obj)`: `obj[_raw_data].get(reason)` when the
`_raw_data` block is present, else the empty string. -/
def obj_reason (obj : JVal) : JVal :=
  if hasKeyB obj "_raw_data" then dget (dget obj "_raw_data") "reason" else .str ""

/-- Embeds `fos_auth.is_error(obj)`: `None` is not an error; a non-dict is an error;
with an integer status, error iff the status is outside [200,300) (a good
status with an `errors` key is logged but reported as no error); with no
integer status, error iff the `errors` key is present. -/
def is_error (obj : Option JVal) : Bool :=
  match obj with
  | none => false
  | some o =>
    if ¬ isDict o then true
    else
      match jvalAsPyInt (obj_status o) with
      | some s => if s < 200 ∨ s ≥ 300 then true else false
      | none => if hasKeyB o "errors" then true else false

/-! `fos_auth.obj_error_detail` / `fos_auth.formatted_error_msg`. -/

mutual
/-- Python `repr` of a JSON value (string escaping inside reprs elided; this is
only ever consulted through `pyStr` for diagnostic text). -/
def pyRepr : JVal → String
  | .null => "None"
  | .bool b => cond b "True" "False"
  | .int n => toString n
  | .str s => "\x27" ++ s ++ "\x27"
  | .list l => "[" ++ pyReprList l ++ "]"
  | .obj kvs => "\x7b" ++ pyReprObj kvs ++ "\x7d"
def pyReprList : List JVal → String
  | [] => ""
  | [x] => pyRepr x
  | x :: y :: rest => pyRepr x ++ ", " ++ pyReprList (y :: rest)
def pyReprObj : List (String × JVal) → String
  | [] => ""
  | [(k, v)] => "\x27" ++ k ++ "\x27: " ++ pyRepr v
  | (k, v) :: y :: rest => "\x27" ++ k ++ "\x27: " ++ pyRepr v ++ ", " ++ pyReprObj (y :: rest)
end

/-- Python `str(v)`: a string is itself, everything else via `repr`. -/
def pyStr : JVal → String
  | .str s => s
  | v => pyRepr v

/-- Python `str(type(v))`. -/
def pyTypeName : JVal → String
  | .null => "<class \x27NoneType\x27>"
  | .bool _ => "<class \x27bool\x27>"
  | .int _ => "<class \x27int\x27>"
  | .str _ => "<class \x27str\x27>"
  | .list _ => "<class \x27list\x27>"
  | .obj _ => "<class \x27dict\x27>"

/-- The level-2 loop of `obj_error_detail`: string values and numeric values of
a nested dict are appended, everything else is skipped. -/
def errorDetailInner (inner : List (String × JVal)) (buf : String) : String :=
  inner.foldl (fun b p =>
    match p.2 with
    | .str s => b ++ "\n    " ++ p.1 ++ ": " ++ s
    | .int n => b ++ "\n    " ++ p.1 ++ ": " ++ toString n
    | .bool bb => b ++ "\n    " ++ p.1 ++ ": " ++ (cond bb "True" "False")
    | _ => b) buf

/-- The level-1 loop of `obj_error_detail` over the keys of one error entry:
string values are appended, dict values recurse one level, others skipped. -/
def errorDetailEntry (kvs : List (String × JVal)) (buf : String) : String :=
  kvs.foldl (fun b p =>
    match p.2 with
    | .str s => b ++ "\n  " ++ p.1 ++ ": " ++ s
    | .obj inner => errorDetailInner inner (b ++ "\n  " ++ p.1 ++ ":")
    | _ => b) buf

/-- The outer loop of `obj_error_detail` over the error list; a non-dict
element raises `AttributeError` at `error_obj.keys()`. -/
def errorDetailLoop : List JVal → Nat → String → Except String String
  | [], _, buf => .ok buf
  | e :: rest, i, buf =>
      match e with
      | .obj kvs =>
          errorDetailLoop rest (i + 1)
            (errorDetailEntry kvs (buf ++ "Error Detail " ++ toString i ++ ":") ++ "\n")
      | _ => .error "AttributeError"

/-- Embeds `fos_auth.obj_error_detail(obj)`: formats the `errors`/`error` detail.
A missing `errors` or `error` key yields the empty string; a single-dict error is wrapped
in a list (pre-8.2.1b encoding); malformed shapes raise as in the source. -/
def obj_error_detail (obj : JVal) : Except String String :=
  match dget obj "errors" with
  | .null => .ok ""
  | .obj ed =>
      match (lookupList ed "error").getD .null with
      | .null => .ok ""
      | .obj kvs => errorDetailLoop [.obj kvs] 0 ""
      | .list l => errorDetailLoop l 0 ""
      | .str _ => .error "AttributeError"
      | _ => .error "TypeError"
  | _ => .error "AttributeError"

/-- Return shape of `formatted_error_msg`: the non-dict branch builds a tuple
(`buf = (Expected ..., str(type(obj)))`) rather than a string. -/
inductive StrOrTuple where
  | s (v : String)
  | tup (a b : String)

/-- Python `k in t` on the two shapes `formatted_error_msg` can return:
substring test on a string, element-equality test on the tuple. -/
def strOrTupleContains (k : String) : StrOrTuple → Bool
  | .s v => py_in k v
  | .tup a b => k == a || k == b

/-- Embeds `fos_auth.formatted_error_msg(obj)`.  The concatenation
`Status: ... + str(...) + obj_reason(obj) + detail`
raises `TypeError` at a non-string reason, before `obj_error_detail` runs. -/
def formatted_error_msg (obj : JVal) : Except String StrOrTuple :=
  match obj with
  | .obj _ =>
      match obj_reason obj with
      | .str r => do
          let detail ← obj_error_detail obj
          .ok (.s ("Status: " ++ pyStr (obj_status obj) ++ "\nReason: " ++ r ++ "\n" ++ detail))
      | _ => .error "TypeError"
  | o => .ok (.tup "Expected type dict. Received type: " (pyTypeName o))

/-! Retry controller of `brcdapi_rest.py`. -/

def _MAX_RETRIES : Nat := 5
def _SVC_UNAVAIL_WAIT : Nat := 4
def _FABRIC_BUSY_WAIT : Nat := 10

/-- Embeds `brcdapi_rest._retry(obj)`: retry decision `(flag, wait seconds)`.
A non-string reason is coerced to the empty string first; condition one is status 503 with
reason containing `Service Unavailable`; condition two is status 400 with
`The Fabric is busy` in the formatted error message (only evaluated when the
status equals 400, by Python short-circuiting). -/
def _retry (obj : JVal) : Except String (Bool × Nat) :=
  let status := obj_status obj
  let reason := match obj_reason obj with
    | .str s => s
    | _ => ""
  if (match jvalAsPyInt status with
      | some s => s == 503
      | none => false) && py_in "Service Unavailable" reason then
    .ok (true, _SVC_UNAVAIL_WAIT)
  else if pyEq status (.int HTTP_BAD_REQUEST) then do
    let fm ← formatted_error_msg obj
    if strOrTupleContains "The Fabric is busy" fm then .ok (true, _FABRIC_BUSY_WAIT)
    else .ok (false, 0)
  else .ok (false, 0)

/-- The `while retry_flag and retry_count > 0` loop of
`brcdapi_rest.api_request`, with the successive `_api_request` results
abstracted as `reqs` (the n-th send returns `reqs n`), the `sent` counter
counting sends so far, and `sleeps` recording each `time.sleep(wait)` call.
`_retry` is evaluated once per received result, including the final one. -/
def api_request_loop (reqs : Nat → Except String JVal) (sent : Nat) (sleeps : List Nat)
    (obj : JVal) : Nat → Except String (Nat × List Nat × JVal)
  | 0 => do
      let _ ← _retry obj
      .ok (sent, sleeps, obj)
  | n + 1 => do
      let fw ← _retry obj
      if fw.1 then do
        let obj2 ← reqs sent
        api_request_loop reqs (sent + 1) (sleeps ++ [fw.2]) obj2 n
      else .ok (sent, sleeps, obj)

/-- Embeds `brcdapi_rest.api_request(session, uri, http_method, content)`: a `None`
URI short-circuits to a Missing URI error; otherwise one initial send followed
by the bounded retry loop with `_MAX_RETRIES` budget.  The result triple is
(total sends, recorded sleeps, returned object). -/
def api_request (reqs : Nat → Except String JVal) (uri : Option String) :
    Except String (Nat × List Nat × JVal) :=
  match uri with
  | none => .ok (0, [], create_error (.int HTTP_BAD_REQUEST) (.str "Missing URI") (.str "Missing URI"))
  | some _ => do
      let obj ← reqs 0
      api_request_loop reqs 1 [] obj _MAX_RETRIES

/-! Transport model: behaviours of the HTTP connection and response objects
that the embedded code consumes.  Exceptions carry a name (the Python class)
and a message (`str(e)`). -/

/-- A Python exception as observed by the handlers in the source. -/
structure PyExn where
  name : String
  msg : String
deriving DecidableEq

/-- The bytes returned by `HTTPResponse.read()`, abstracted by how
`json.loads` treats them: empty, a JSON dict, some other JSON value, bytes
that fail Unicode decoding, or otherwise malformed JSON. -/
inductive BodyData where
  | empty
  | jsonDict (kvs : List (String × JVal))
  | jsonOther (j : JVal)
  | unicodeErr
  | badJson

/-- Outcome of calling `.read()` on a response object. -/
inductive ReadOutcome where
  | ok (b : BodyData)
  | raises (e : PyExn)

/-- An `HTTPResponse`: status, reason, body-read behaviour, and the two
headers the login path consults. -/
structure RespModel where
  status : Int
  reason : String
  read : ReadOutcome
  contentType : Option String
  authorization : Option String

/-- Argument of `basic_api_parse`: either a response object or (on the logout
path) a bare byte string, which has no `.read()` attribute. -/
inductive ParseInput where
  | resp (r : RespModel)
  | bytes (b : BodyData)

/-- Outcome of `conn.request(...)`. -/
inductive ReqOutcome where
  | ok
  | raises (e : PyExn)

/-- Outcome of `conn.getresponse()`. -/
inductive RespOutcome where
  | ok (r : RespModel)
  | raises (e : PyExn)

/-- Behaviour of a connection handle for one request/response exchange. -/
structure Conn where
  req : ReqOutcome
  getresp : RespOutcome

/-- The session dict fields consumed by the embedded functions:
`credential`, `conn`, `ip_addr` and `uri_map`. -/
structure Session where
  credential : Option JVal
  conn : Conn
  ip_addr : Option String
  uri_map : Option JVal

/-- Embeds `fos_auth.basic_api_parse(obj)`.  All exceptions are handled inside:
a missing `.read` (bare bytes) or an `AttributeError` from `.read()` falls
through to the freshly initialized `dict()`; any other read failure becomes a
500 "Undetermined error parsing response"; a Unicode-undecodable body becomes
a 500 "Invalid data returned from FOS"/"UnicodeDecodeError"; other JSON
decode failures become a 500 "Invalid data returned from FOS"; a decoded
non-dict is returned as-is (its `.update(_raw_data=...)` raises
`AttributeError`, which is passed); a decoded dict (or empty body) gets the
`_raw_data` status/reason block attached. -/
def basic_api_parse (obj : ParseInput) : JVal :=
  match obj with
  | .bytes _ => .obj []
  | .resp r =>
      match r.read with
      | .raises e =>
          if e.name == "AttributeError" then .obj []
          else create_error (.int HTTP_INT_SERVER_ERROR)
            (.str "Undetermined error parsing response") (.str "")
      | .ok body =>
          match body with
          | .unicodeErr =>
              create_error (.int HTTP_INT_SERVER_ERROR)
                (.str "Invalid data returned from FOS") (.str "UnicodeDecodeError")
          | .badJson =>
              create_error (.int HTTP_INT_SERVER_ERROR)
                (.str "Invalid data returned from FOS") (.str "")
          | .empty =>
              dictUpdate (.obj []) "_raw_data"
                (.obj [("status", .int r.status), ("reason", .str r.reason)])
          | .jsonDict kvs =>
              dictUpdate (.obj kvs) "_raw_data"
                (.obj [("status", .int r.status), ("reason", .str r.reason)])
          | .jsonOther j => j

/-! Response post-processing of `brcdapi_rest._api_request` ("Do some basic
parsing of the response"). -/

/-- The message-extraction block: `msg` starts empty, then
`json_data[errors][error][error-message]`, and on failure — only when
`_raw_data` is absent — the list-shaped fallback
`json_data[errors][error][0][error-message]`, whose own failure leaves
`msg` empty.  The `_raw_data not in json_data` test runs inside the `except`
handler, so a non-container `json_data` raises `TypeError` out of the whole
function. -/
def msg_extract (json_data : JVal) : Except String JVal :=
  match pyIndexS json_data "errors" >>= (fun e => pyIndexS e "error") >>=
      (fun e => pyIndexS e "error-message") with
  | .ok m => .ok m
  | .error _ => do
      let present ← pyInJVal "_raw_data" json_data
      if present then .ok (.str "")
      else
        match pyIndexS json_data "errors" >>= (fun e => pyIndexS e "error") >>=
            (fun e => pyIndexNat e 0) >>= (fun e => pyIndexS e "error-message") with
        | .ok m => .ok m
        | .error _ => .ok (.str "")

/-- Quirk rule 1: `GET` with raw status 404 and reason `Not Found`.
Python `and` short-circuits left to right, so the raw-data indexing only runs
for a `GET`. -/
def quirk_cond1 (http_method : String) (json_data : JVal) : Except String Bool :=
  if http_method != "GET" then .ok false
  else do
    let rd ← pyIndexS json_data "_raw_data"
    let st ← pyIndexS rd "status"
    if !pyEq st (.int HTTP_NOT_FOUND) then .ok false
    else do
      let rs ← pyIndexS rd "reason"
      .ok (pyEq rs (.str "Not Found"))

/-- Quirk rule 2: `GET` with raw status 400 and message exactly
`No entries in the FDMI database`. -/
def quirk_cond2 (http_method : String) (json_data msg : JVal) : Except String Bool :=
  if http_method != "GET" then .ok false
  else do
    let rd ← pyIndexS json_data "_raw_data"
    let st ← pyIndexS rd "status"
    if !pyEq st (.int HTTP_BAD_REQUEST) then .ok false
    else .ok (pyEq msg (.str "No entries in the FDMI database"))

/-- Quirk rule 3: `GET` with raw status 400, reason `Bad Request` and message
containing `Not supported on this platform`. -/
def quirk_cond3 (http_method : String) (json_data msg : JVal) : Except String Bool :=
  if http_method != "GET" then .ok false
  else do
    let rd ← pyIndexS json_data "_raw_data"
    let st ← pyIndexS rd "status"
    if !pyEq st (.int HTTP_BAD_REQUEST) then .ok false
    else do
      let rs ← pyIndexS rd "reason"
      if !pyEq rs (.str "Bad Request") then .ok false
      else pyInJVal "Not supported on this platform" msg

/-- Quirk rule 4: `PATCH` with raw status 400, reason `Bad Request` and message
containing `No Change in Configuration` or `Same configuration` (the `or`
short-circuits). -/
def quirk_cond4 (http_method : String) (json_data msg : JVal) : Except String Bool :=
  if http_method != "PATCH" then .ok false
  else do
    let rd ← pyIndexS json_data "_raw_data"
    let st ← pyIndexS rd "status"
    if !pyEq st (.int HTTP_BAD_REQUEST) then .ok false
    else do
      let rs ← pyIndexS rd "reason"
      if !pyEq rs (.str "Bad Request") then .ok false
      else do
        let b1 ← pyInJVal "No Change in Configuration" msg
        if b1 then .ok true
        else pyInJVal "Same configuration" msg

/-- The `if`/`elif` chain of the error branch: the first matching rule
rewrites the result to the literal `dict(cmd=list())` (the key is the keyword
literal `cmd`, not the URI leaf variable), otherwise the error result passes
through unchanged.  Any `TypeError`/`KeyError` raised during the chain is the
`.error` case, caught by the surrounding handler. -/
def quirk_branch (http_method : String) (json_data msg : JVal) : Except String JVal := do
  let c1 ← quirk_cond1 http_method json_data
  if c1 then .ok (.obj [("cmd", .list [])])
  else do
    let c2 ← quirk_cond2 http_method json_data msg
    if c2 then .ok (.obj [("cmd", .list [])])
    else do
      let c3 ← quirk_cond3 http_method json_data msg
      if c3 then .ok (.obj [("cmd", .list [])])
      else do
        let c4 ← quirk_cond4 http_method json_data msg
        if c4 then .ok (.obj [("cmd", .list [])])
        else .ok json_data

/-- The error branch of the post-processing: extract `msg`, run the quirk
chain, and on `TypeError`/`KeyError` fall back to a best-effort
`create_error` with status 0 / `No status provided.` when the raw status is
unavailable and reason `No reason provided` when the raw reason is. -/
def error_branch (http_method : String) (json_data : JVal) : Except String JVal := do
  let msg ← msg_extract json_data
  match quirk_branch http_method json_data msg with
  | .ok r => .ok r
  | .error _ =>
      let sm : JVal × JVal :=
        match pyIndexS json_data "_raw_data" >>= (fun rd => pyIndexS rd "status") with
        | .ok v => (v, msg)
        | .error _ => (.int 0, .str "No status provided.")
      let reason : JVal :=
        match pyIndexS json_data "_raw_data" >>= (fun rd => pyIndexS rd "reason") with
        | .ok v => v
        | .error _ => .str "No reason provided"
      .ok (create_error sm.1 reason sm.2)

/-- The post-parse section of `_api_request`: on an error result run the
quirk/error branch; on a `Response` wrapper unwrap it (an empty wrapper
becomes `{cmd: []}` keyed by the URI leaf); otherwise default status 400 /
empty-string reason from the raw block (or `Invalid response from the API` when the
raw block is absent) and return `create_error` for a non-2xx status or the
empty dict for a 2xx one.  A non-integer status raises `TypeError` at the
`status < 200` comparison. -/
def api_request_post (http_method uri : String) (json_data : JVal) : Except String JVal :=
  let tl := pySplit ((pySplit uri (Char.ofNat 63)).headD "") (Char.ofNat 47)
  let cmd := tl.getLastD ""
  if is_error (some json_data) then error_branch http_method json_data
  else if hasKeyB json_data "Response" then
    let obj := dget json_data "Response"
    .ok (if pyTruthy obj then obj else .obj [(cmd, .list [])])
  else
    match dget json_data "_raw_data" with
    | .null =>
        .ok (create_error (.int HTTP_BAD_REQUEST) (.str "Invalid response from the API") (.str ""))
    | rd =>
        let status := match dget rd "status" with
          | .null => .int HTTP_BAD_REQUEST
          | v => v
        let reason := match dget rd "reason" with
          | .null => .str ""
          | v => v
        match jvalAsPyInt status with
        | some st =>
            .ok (if st < 200 ∨ st ≥ 300 then create_error (.int st) reason (.str "") else .obj [])
        | none => .error "TypeError"

/-- Embeds `brcdapi_rest._api_request(session, uri, http_method, content)` with the
module defaults `_DEBUG = False` and `_DISABLE_OPTIONS_CHECK = True` (so the
debug short-circuit and the OPTIONS preflight are skipped).  A missing
credential returns the 403 `No login session` error; an exception while
sending becomes the 404 `Not Found` error (ip-addr-tagged when the session
has one); a `TimeoutError` while receiving becomes the 408 result; any other
exception while receiving hits the raise of the string literal Fault, which itself raises
(`TypeError`, strings are not exceptions) — modelled as `.error`.  The
OPTIONS bookkeeping (`_set_methods`/`_add_methods`) mutates only the
uri_map cache of the session, never the returned value, and is omitted. -/
def _api_request (session : Session) (uri : String) (http_method : String) (content : JVal) :
    Except String JVal :=
  match session.credential with
  | none => .ok (create_error (.int HTTP_FORBIDDEN) (.str "No login session") (.list []))
  | some _ =>
      match session.conn.req with
      | .raises e =>
          let obj := create_error (.int HTTP_NOT_FOUND) (.str "Not Found")
            (.list [.str "Typical of switch going offline or pre-FOS 8.2.1c", .str e.msg])
          .ok (match session.ip_addr with
               | some ip => dictUpdate obj "ip_addr" (.str ip)
               | none => obj)
      | .ok =>
          match session.conn.getresp with
          | .raises e =>
              if e.name == "TimeoutError" then
                .ok (create_error (.int HTTP_REQUEST_TIMEOUT)
                  (.str ("Time out processing " ++ uri ++ ". Method: " ++ http_method)) (.str ""))
              else .error "TypeError: exceptions must derive from BaseException"
          | .ok r =>
              let json_data := basic_api_parse (.resp r)
              api_request_post http_method uri json_data

/-! Session lifecycle: `fos_auth.login` / `fos_auth.logout`. -/

/-- The value `login` returns on its success path: the parsed response dict
(with `content-type`, `content-version`, `ip_addr`, `ishttps` and `debug`
merged in) together with the two non-JSON entries of the session dict, the
connection handle (`conn`) and the refreshed Authorization
header. -/
structure LoginSession where
  json : JVal
  conn : Conn
  authorization : Option String

/-- Embeds `fos_auth.login(user, password, ip_addr, in_http_access)` over a
connection behaviour.  The security mode is modelled as an optional string
(string-typed callers; non-string, non-bytes modes raise the same
`TypeError`).  A mode other than `none`/`self` reaches
`create_error(400, Unsupported login, str(http_access, errors=ignore))`,
and `str` of a `str` with an `errors` keyword raises `TypeError` — login
raises instead of returning.  `_get_connection` only constructs the
connection object (no network contact), so its `ConnectionRefusedError`
handler is unreachable for validated modes.  Both handlers around
`conn.request` end in `create_error(...).update(ip_addr=ip_addr)`, and
`dict.update` returns `None`, so a send failure makes login return `None`.
`conn.getresponse()` and the header/update sequence are unguarded, so their
failures propagate. -/
def login (user password ip_addr : String) (in_http_access : Option String) (conn : Conn) :
    Except String (Option LoginSession) :=
  let http_access := match in_http_access with
    | none => "none"
    | some s => s
  if http_access != "none" && http_access != "self" then
    .error "TypeError: decoding str is not supported"
  else
    match conn.req with
    | .raises _ => .ok none
    | .ok =>
        match conn.getresp with
        | .raises e => .error e.name
        | .ok r =>
            let json_data := basic_api_parse (.resp r)
            match r.contentType with
            | none => .error "AttributeError"
            | some content =>
                if ¬ isDict json_data then .error "AttributeError"
                else
                  let content_l := pySplit content (Char.ofNat 59)
                  let jd :=
                    if content_l.length == 2 then
                      dictUpdate (dictUpdate json_data "content-type" (.str (content_l.headD "")))
                        "content-version" (.str (content_l.getLastD ""))
                    else
                      dictUpdate (dictUpdate json_data "content-type" (.str content))
                        "content-version" .null
                  let jd := dictUpdate (dictUpdate (dictUpdate jd "ip_addr" (.str ip_addr))
                    "ishttps" (.bool (http_access != "none"))) "debug" (.bool false)
                  .ok (some { json := jd, conn := conn, authorization := r.authorization })

/-- Embeds `fos_auth.logout(session)`: sends the logout POST and parses
`conn.getresponse().read()` — raw bytes — with `basic_api_parse`.  Nothing is
wrapped in a handler, so any transport failure while sending, receiving or
reading propagates to the caller; on transport success the bare bytes make
`basic_api_parse` return the empty dict. -/
def logout (session : Session) : Except String JVal :=
  match session.conn.req with
  | .raises e => .error e.name
  | .ok =>
      match session.conn.getresp with
      | .raises e => .error e.name
      | .ok r =>
          match r.read with
          | .raises e => .error e.name
          | .ok b => .ok (basic_api_parse (.bytes b))

/-! URI resolution: `util.vfid_to_str`, `util.split_uri`,
`gen_util.get_key_val`, `util.session_cntl`, `util.format_uri`.  These return
their value together with the list of lines they emit to the log
collaborator. -/

def _VF_ID : String := "?vf-id="

/-- Embeds `util.vfid_to_str(vfid)`: empty for `None`, else `?vf-id=` ++ `str(vfid)`. -/
def vfid_to_str (vfid : Option Int) : String :=
  match vfid with
  | none => ""
  | some v => _VF_ID ++ toString v

/-- One conditional `l.pop(0)` step of `split_uri`. -/
def popIf (l : List String) (p : String → Bool) : List String :=
  match l with
  | [] => []
  | x :: rest => if p x then rest else x :: rest

/-- Embeds `util.split_uri(uri, run_op_out)`: split on `/`, strip a leading empty
segment and a leading `rest`, and optionally a leading
`running`/`operations`. -/
def split_uri (uri : String) (run_op_out : Bool) : List String :=
  let l := pySplit uri (Char.ofNat 47)
  let l := popIf l (fun x => x == "")
  let l := popIf l (fun x => x == "rest")
  if run_op_out then popIf l (fun x => x == "running" || x == "operations") else l

/-- The key walk of `gen_util.get_key_val`: step into dicts with `.get`; at a
non-dict value, a non-final key logs and returns `None`, while the final key
leaves the value untouched. -/
def get_key_val_walk (keys last_key : String) : List String → JVal → JVal × List String
  | [], v => (v, [])
  | k :: rest, v =>
      match v with
      | .obj _ => get_key_val_walk keys last_key rest (dget v k)
      | _ =>
          if k == last_key then get_key_val_walk keys last_key rest v
          else (.null, ["Object type, " ++ pyTypeName v ++ ", for " ++ k ++ ", in " ++ keys ++
            " not a dict or brcddb object "])

/-- Embeds `gen_util.get_key_val(obj, keys)`: `None` in, `None` out; a non-dict
object logs and returns `None`; otherwise walk the `/`-separated keys.
(The `r_get` branch is for brcddb objects, which never appear in the
session dicts of this repository.) -/
def get_key_val (obj : Option JVal) (keys : String) : Option JVal × List String :=
  match obj with
  | none => (none, [])
  | some o =>
      match o with
      | .obj _ =>
          let key_l := pySplit keys (Char.ofNat 47)
          if key_l.length == 0 then (none, [])
          else
            let last_key := key_l.getLastD ""
            let (v, logs) := get_key_val_walk keys last_key key_l o
            (match v with
             | .null => none
             | w => some w, logs)
      | _ => (none, ["Object type, " ++ pyTypeName o ++ ", not a dict or brcddb object,"])

/-- Embeds `util.session_cntl(session, in_uri)`: the show-status polling URI is
always unmapped; otherwise look the normalized URI up in the session
`uri_map`, falling back to the legacy running-prefixed key. -/
def session_cntl (session : Session) (in_uri : String) : Option JVal × List String :=
  if py_in "operations/show-status/message-id/" in_uri then (none, [])
  else
    let uri := pyJoin "/" (split_uri in_uri false)
    let p := get_key_val session.uri_map uri
    match p with
    | (some v, log1) => (some v, log1)
    | (none, log1) =>
        let p2 := get_key_val session.uri_map ("running/" ++ uri)
        (p2.1, log1 ++ p2.2)

/-- Embeds `util.format_uri(session, uri, fid)`: an unmapped URI resolves to the
best-guess `/rest/ + uri`; a mapped one evaluates `d[fid]` first (Python
conditional expression order), returning `d[uri]` unchanged when the
catalog `fid` field is `None` and `d[uri] + vfid_to_str(fid)` otherwise
(`TypeError` when that `d[uri]` is not a string).  `format_uri` itself
emits no log lines beyond what the lookups emit. -/
def format_uri (session : Session) (uri : String) (fid : Option Int) :
    Except String JVal × List String :=
  match session_cntl session uri with
  | (none, logs) => (.ok (.str ("/rest/" ++ uri)), logs)
  | (some d, logs) =>
      let r : Except String JVal := do
        let fidv ← pyIndexS d "fid"
        match fidv with
        | .null => pyIndexS d "uri"
        | _ => do
            let u ← pyIndexS d "uri"
            match u with
            | .str su => .ok (.str (su ++ vfid_to_str fid))
            | _ => .error "TypeError"
      (r, logs)

def _DISABLE_OPTIONS_CHECK : Bool := true

def op_no : Int := 0

/-- Embeds `brcdapi_rest._check_methods(session, uri)`: with the module default
`_DISABLE_OPTIONS_CHECK = True` it returns `False` immediately; otherwise it
looks the URI up (with the `running/` fallback), reports `True` only for a
mapped entry whose `op` equals `op_no`, and logs `UNKNOWN URI` for an
unmapped one. -/
def _check_methods (session : Session) (uri : String) : Bool × List String :=
  if _DISABLE_OPTIONS_CHECK then (false, [])
  else
    let p := get_key_val session.uri_map uri
    let q : Option JVal × List String :=
      match p with
      | (none, log1) =>
          let p2 := get_key_val session.uri_map ("running/" ++ uri)
          (p2.1, log1 ++ p2.2)
      | (some v, log1) => (some v, log1)
    match q with
    | (some (.obj kvs), logs) =>
        (match (lookupList kvs "op").getD .null with
         | v =>
            match jvalAsPyInt v with
            | some m => (m == op_no, logs)
            | none => (false, logs))
    | (some _, logs) => (false, logs ++ ["UNKNOWN URI: " ++ uri])
    | (none, logs) => (false, logs ++ ["UNKNOWN URI: " ++ uri])

/-! Spec-side definition and concrete fixtures. -/

/-- The status override of a result as Python sees it: the integer value of
`obj_status`, when it has one. -/
def statusOverride (r : JVal) : Option Int := jvalAsPyInt (obj_status r)

/-- Modelled from the words of the spec (the §3 Normalized Result invariant
and the first §8 property), for comparison with the source `is_error`: a result
is classified as an error iff its raw status code falls outside [200,300), or
it carries an error-detail list (`errors` key) without a successful status
override. -/
def spec_error_classified (r : JVal) : Prop :=
  (∃ s, statusOverride r = some s ∧ (s < 200 ∨ 300 ≤ s)) ∨
  (hasKeyB r "errors" = true ∧ ¬ ∃ s, statusOverride r = some s ∧ 200 ≤ s ∧ s < 300)

/-- A device response reporting 503 / Service Unavailable. -/
def fixture503 : JVal :=
  .obj [("_raw_data", .obj [("status", .int 503), ("reason", .str "Service Unavailable")])]

/-- A parsed GET response reporting 404 / Not Found. -/
def fixture404 : JVal :=
  .obj [("_raw_data", .obj [("status", .int 404), ("reason", .str "Not Found")])]

/-- A PATCH no-change error in the single-dict error-detail encoding
(pre-8.2.1b firmware shape). -/
def patchNoChangeDict : JVal :=
  .obj [("_raw_data", .obj [("status", .int 400), ("reason", .str "Bad Request")]),
        ("errors", .obj [("error", .obj [("error-message", .str "No Change in Configuration")])])]

/-- The same PATCH no-change error in the list-shaped error-detail encoding —
the shape `create_error` itself produces and newer firmware reports. -/
def patchNoChangeList : JVal :=
  .obj [("_raw_data", .obj [("status", .int 400), ("reason", .str "Bad Request")]),
        ("errors", .obj [("error", .list [.obj [("error-message", .str "No Change in Configuration")]])])]

/-- A session whose send succeeds but whose receive raises an unexpected
(non-timeout) transport error. -/
def sessionRecvFail : Session :=
  ⟨some (.obj []), ⟨.ok, .raises ⟨"ConnectionResetError", "reset"⟩⟩, none, none⟩

/-- A session whose send raises (switch offline / connection refused). -/
def sessionSendFail : Session :=
  ⟨some (.obj []), ⟨.raises ⟨"ConnectionRefusedError", "refused"⟩, .raises ⟨"X", ""⟩⟩, none, none⟩

/-- A session whose logout receive succeeds but whose body read raises. -/
def sessionReadFail : Session :=
  ⟨some (.obj []), ⟨.ok, .ok ⟨200, "OK", .raises ⟨"BrokenPipeError", "pipe"⟩, none, none⟩⟩, none, none⟩

/-- Catalog fixture: one endpoint whose descriptor requires a fabric id. -/
def uriMapFixture : JVal :=
  .obj [("running", .obj [("brocade-fibrechannel-switch", .obj [("fibrechannel-switch",
    .obj [("uri", .str "/rest/running/brocade-fibrechannel-switch/fibrechannel-switch"),
          ("fid", .bool true)])])])]

/-- A logged-in session carrying the catalog fixture. -/
def sessionWithMap : Session :=
  ⟨some (.obj []), ⟨.ok, .raises ⟨"X", ""⟩⟩, none, some uriMapFixture⟩

/-- A logged-in session with an empty endpoint catalog. -/
def sessionEmptyMap : Session :=
  ⟨some (.obj []), ⟨.ok, .raises ⟨"X", ""⟩⟩, none, some (.obj [])⟩

/-! Bridging lemmas between the container primitives. -/

theorem lookupList_isSome_eq_any (kvs : List (String × JVal)) (k : String) :
    (lookupList kvs k).isSome = kvs.any (fun p => p.1 == k) := by
  induction kvs with
  | nil => rfl
  | cons a rest ih =>
      obtain ⟨k', v⟩ := a
      simp only [lookupList, List.any_cons]
      by_cases h : (k' == k) = true
      · simp [h]
      · simp only [Bool.not_eq_true] at h
        simp [h, ih]

theorem hasKeyB_obj_eq (kvs : List (String × JVal)) (k : String) :
    hasKeyB (.obj kvs) k = (lookupList kvs k).isSome := by
  rw [lookupList_isSome_eq_any]; rfl

theorem dget_obj (kvs : List (String × JVal)) (k : String) :
    dget (.obj kvs) k = (lookupList kvs k).getD .null := rfl

theorem pyIndexS_ok_shape (j : JVal) (k : String) (v : JVal) (h : pyIndexS j k = .ok v) :
    ∃ kvs, j = .obj kvs ∧ lookupList kvs k = some v := by
  cases j with
  | obj kvs =>
      refine ⟨kvs, rfl, ?_⟩
      cases hl : lookupList kvs k with
      | some w => simp only [pyIndexS, hl, Except.ok.injEq] at h; rw [h]
      | none => simp only [pyIndexS, hl] at h; cases h
  | null => cases h
  | bool b => cases h
  | int n => cases h
  | str s => cases h
  | list l => cases h

theorem isDict_shape (v : JVal) (h : isDict v = true) : ∃ kvs, v = .obj kvs := by
  cases v <;> simp [isDict] at h ⊢

/-! Claim theorems. -/

/-- C10: the is-error predicate classifies the missing result `None` as a
success: `is_error(None)` returns `False`, so the `None` produced by the
login connection-failure paths (whose `dict.update(...)` evaluates to `None`)
is treated as a success by the single source-of-truth predicate. -/
theorem is_error_none_is_success : is_error none = false := rfl

/-- C1: for every Normalized Result dict `r` whose `_raw_data` block, when
present, is a dict (the only shape this library produces — a non-dict block
would raise inside `obj_status`), `is_error` returns true iff the raw
status code falls outside [200,300) or `r` carries an `errors` detail list
without a successful status override.  The fixture with no status block and
the bare-bytes parse result are instances (see the witness). -/
theorem is_error_iff_spec_classified (r : JVal) (hdict : isDict r = true)
    (hwf : hasKeyB r "_raw_data" = false ∨ isDict (dget r "_raw_data") = true) :
    is_error (some r) = true ↔ spec_error_classified r := by
  obtain ⟨kvs, rfl⟩ := isDict_shape r hdict
  cases hk : hasKeyB (JVal.obj kvs) "_raw_data" with
  | false =>
      have hst : obj_status (.obj kvs) = .int 200 := by
        simp [obj_status, hk, HTTP_OK]
      have hle : is_error (some (.obj kvs)) = false := by
        simp [is_error, isDict, hst, jvalAsPyInt]
      rw [hle]
      simp only [Bool.false_eq_true, false_iff]
      intro hspec
      rcases hspec with ⟨s, hs, hout⟩ | ⟨-, hno⟩
      · rw [statusOverride, hst] at hs
        simp only [jvalAsPyInt, Option.some.injEq] at hs
        omega
      · exact hno ⟨200, by simp [statusOverride, hst, jvalAsPyInt], by omega⟩
  | true =>
      have hwf' : isDict (dget (.obj kvs) "_raw_data") = true := by
        rcases hwf with h0 | h1
        · rw [hk] at h0; cases h0
        · exact h1
      obtain ⟨rkvs, hrd⟩ := isDict_shape _ hwf'
      have hst : obj_status (.obj kvs) = (lookupList rkvs "status").getD .null := by
        simp [obj_status, hk, hrd, dget_obj]
      cases hsv : jvalAsPyInt ((lookupList rkvs "status").getD .null) with
      | some s =>
          have hle : is_error (some (.obj kvs)) = true ↔ (s < 200 ∨ 300 ≤ s) := by
            simp [is_error, isDict, hst, hsv]
          rw [hle]
          constructor
          · intro h
            exact Or.inl ⟨s, by simp [statusOverride, hst, hsv], h⟩
          · rintro (⟨t, ht, hout⟩ | ⟨-, hno⟩)
            · simp only [statusOverride, hst, hsv, Option.some.injEq] at ht
              omega
            · by_contra hcon
              push_neg at hcon
              exact hno ⟨s, by simp [statusOverride, hst, hsv], by omega⟩
      | none =>
          have hle : is_error (some (.obj kvs)) = hasKeyB (.obj kvs) "errors" := by
            simp [is_error, isDict, hst, hsv]
          rw [hle]
          simp [spec_error_classified, statusOverride, hst, hsv]

/-- C1 witness: the bare-bytes edge case — `basic_api_parse` of raw bytes
yields the empty dict, a fixture with no status block — satisfies the
hypotheses of `is_error_iff_spec_classified`, and the classification
invariant holds for it. -/
theorem is_error_iff_spec_classified_witness :
    isDict (basic_api_parse (.bytes .empty)) = true ∧
    (hasKeyB (basic_api_parse (.bytes .empty)) "_raw_data" = false ∨
      isDict (dget (basic_api_parse (.bytes .empty)) "_raw_data") = true) ∧
    (is_error (some (basic_api_parse (.bytes .empty))) = true ↔
      spec_error_classified (basic_api_parse (.bytes .empty))) :=
  ⟨rfl, Or.inl rfl, is_error_iff_spec_classified (basic_api_parse (.bytes .empty)) rfl (Or.inl rfl)⟩

theorem exbind_ok {α β : Type} (a : α) (f : α → Except String β) :
    (Except.ok a >>= f) = f a := rfl

theorem exbind_err {α β : Type} (e : String) (f : α → Except String β) :
    ((Except.error e : Except String α) >>= f) = Except.error e := rfl

theorem retry_svc_unavail (r : JVal) (s : String)
    (hst : obj_status r = .int 503) (hrs : obj_reason r = .str s)
    (hin : py_in "Service Unavailable" s = true) :
    _retry r = .ok (true, _SVC_UNAVAIL_WAIT) := by
  unfold _retry
  rw [hst, hrs]
  simp [jvalAsPyInt, hin]

theorem api_request_loop_503 (reqs : Nat → Except String JVal)
    (h : ∀ n, ∃ rn, reqs n = .ok rn ∧ _retry rn = .ok (true, _SVC_UNAVAIL_WAIT)) :
    ∀ (f sent : Nat) (sleeps : List Nat) (obj : JVal),
      _retry obj = .ok (true, _SVC_UNAVAIL_WAIT) →
      ∃ rl, reqs (sent + f) = .ok rl ∧
        api_request_loop reqs sent sleeps obj (f + 1) =
          .ok (sent + f + 1, sleeps ++ List.replicate (f + 1) _SVC_UNAVAIL_WAIT, rl) := by
  intro f
  induction f with
  | zero =>
      intro sent sleeps obj hobj
      obtain ⟨rs, hrs, hret⟩ := h sent
      refine ⟨rs, by simpa using hrs, ?_⟩
      simp [api_request_loop, hobj, hrs, hret, exbind_ok]
  | succ m ih =>
      intro sent sleeps obj hobj
      obtain ⟨rs, hrs, hret⟩ := h sent
      obtain ⟨rl, hrl, hloop⟩ := ih (sent + 1) (sleeps ++ [_SVC_UNAVAIL_WAIT]) rs hret
      refine ⟨rl, by rw [show sent + (m + 1) = sent + 1 + m by omega]; exact hrl, ?_⟩
      have hstep : api_request_loop reqs sent sleeps obj (m + 1 + 1) =
          api_request_loop reqs (sent + 1) (sleeps ++ [_SVC_UNAVAIL_WAIT]) rs (m + 1) := by
        simp [api_request_loop, hobj, hrs, exbind_ok]
      rw [hstep, hloop]
      congr 1
      refine congrArg₂ _ (by omega) (congrArg₂ _ ?_ rfl)
      rw [List.append_assoc]
      congr 1

/-- C2: for every request dispatched through `api_request` whose every
response is classified as status 503 with reason containing
`Service Unavailable`, the dispatcher performs exactly `_MAX_RETRIES + 1`
total sends (1 initial + 5 retries with the default bound), sleeps the
configured `_SVC_UNAVAIL_WAIT` (4 seconds) before each retry, and returns the
final still-failing result unchanged — not a synthesized max-retries error. -/
theorem api_request_503_retry_bound (reqs : Nat → Except String JVal) (u : String)
    (h : ∀ n, ∃ rn, reqs n = .ok rn ∧ obj_status rn = .int 503 ∧
          ∃ srn, obj_reason rn = .str srn ∧ py_in "Service Unavailable" srn = true) :
    ∃ rl, reqs _MAX_RETRIES = .ok rl ∧
      api_request reqs (some u) =
        .ok (_MAX_RETRIES + 1, List.replicate _MAX_RETRIES _SVC_UNAVAIL_WAIT, rl) := by
  have h' : ∀ n, ∃ rn, reqs n = .ok rn ∧ _retry rn = .ok (true, _SVC_UNAVAIL_WAIT) := by
    intro n
    obtain ⟨rn, hr, hst, srn, hrs, hin⟩ := h n
    exact ⟨rn, hr, retry_svc_unavail rn srn hst hrs hin⟩
  obtain ⟨r0, hr0, hret0⟩ := h' 0
  obtain ⟨rl, hrl, hloop⟩ := api_request_loop_503 reqs h' 4 1 [] r0 hret0
  refine ⟨rl, by simpa [_MAX_RETRIES] using hrl, ?_⟩
  simp only [api_request, hr0, exbind_ok]
  rw [show _MAX_RETRIES = 4 + 1 from rfl]
  rw [hloop]
  norm_num

/-- C2 witness: a fixture that always reports 503/Service Unavailable makes
the dispatcher send 6 times, sleep 4 seconds before each of the 5 retries,
and return the final failing result unchanged. -/
theorem api_request_503_retry_bound_witness :
    api_request (fun _ => .ok fixture503) (some "/rest/running/brocade-fabric/fabric-switch") =
      .ok (6, [4, 4, 4, 4, 4], fixture503) := by
  obtain ⟨rl, hrl, hout⟩ := api_request_503_retry_bound (fun _ => .ok fixture503)
    "/rest/running/brocade-fabric/fabric-switch"
    (fun _ => ⟨fixture503, rfl, rfl, "Service Unavailable", rfl, rfl⟩)
  simp only [Except.ok.injEq] at hrl
  rw [← hrl] at hout
  rw [hout]
  rfl

theorem msg_extract_ok_of_rawdata (kvs : List (String × JVal))
    (hk : hasKeyB (.obj kvs) "_raw_data" = true) :
    ∃ m, msg_extract (.obj kvs) = .ok m := by
  have hk' : (kvs.any (fun p => p.1 == "_raw_data")) = true := hk
  cases h1 : pyIndexS (.obj kvs) "errors" >>= (fun e => pyIndexS e "error") >>=
      (fun e => pyIndexS e "error-message") with
  | ok m => exact ⟨m, by simp [msg_extract, h1]⟩
  | error e =>
      refine ⟨.str "", ?_⟩
      simp [msg_extract, h1, pyInJVal, exbind_ok, hk']

/-- C3: for every GET request whose parsed response has raw status 404 and raw
reason `Not Found`, the quirk normalizer rewrites the result into the
empty-collection success mapping the literal key cmd to an empty list — a
result the is-error predicate
classifies as a success and whose payload is an empty list. -/
theorem get_404_rewritten_to_empty (uri : String) (jd rd : JVal)
    (hdict : isDict jd = true)
    (hrd : pyIndexS jd "_raw_data" = .ok rd)
    (hst : pyIndexS rd "status" = .ok (.int 404))
    (hrs : pyIndexS rd "reason" = .ok (.str "Not Found")) :
    api_request_post "GET" uri jd = .ok (.obj [("cmd", .list [])]) ∧
    is_error (some (.obj [("cmd", .list [])])) = false ∧
    dget (.obj [("cmd", .list [])]) "cmd" = .list [] := by
  obtain ⟨kvs, rfl, hlk⟩ := pyIndexS_ok_shape _ _ _ hrd
  have hkey : hasKeyB (.obj kvs) "_raw_data" = true := by
    rw [hasKeyB_obj_eq, hlk]; rfl
  have hdg : dget (.obj kvs) "_raw_data" = rd := by rw [dget_obj, hlk]; rfl
  obtain ⟨rkvs, rfl, hlk2⟩ := pyIndexS_ok_shape _ _ _ hst
  have hos : obj_status (.obj kvs) = .int 404 := by
    simp only [obj_status, hkey, if_true, hdg, dget_obj, hlk2]
    rfl
  have hie : is_error (some (.obj kvs)) = true := by
    simp [is_error, isDict, hos, jvalAsPyInt]
  obtain ⟨m, hmsg⟩ := msg_extract_ok_of_rawdata kvs hkey
  have hc1 : quirk_cond1 "GET" (.obj kvs) = .ok true := by
    simp [quirk_cond1, hrd, hst, hrs, exbind_ok, pyEq, HTTP_NOT_FOUND]
  have hqb : quirk_branch "GET" (.obj kvs) m = .ok (.obj [("cmd", .list [])]) := by
    simp [quirk_branch, hc1, exbind_ok]
  have heb : error_branch "GET" (.obj kvs) = .ok (.obj [("cmd", .list [])]) := by
    simp [error_branch, hmsg, hqb, exbind_ok]
  refine ⟨?_, rfl, rfl⟩
  simp [api_request_post, hie, heb]

/-- C3 witness: the concrete 404/Not Found GET fixture satisfies the
hypotheses and is rewritten to the empty-collection success. -/
theorem get_404_rewritten_to_empty_witness :
    isDict fixture404 = true ∧
    pyIndexS fixture404 "_raw_data" = .ok (.obj [("status", .int 404), ("reason", .str "Not Found")]) ∧
    api_request_post "GET" "/rest/running/brocade-zone/defined-configuration" fixture404 =
      .ok (.obj [("cmd", .list [])]) ∧
    is_error (some (.obj [("cmd", .list [])])) = false :=
  ⟨rfl, rfl,
    (get_404_rewritten_to_empty "/rest/running/brocade-zone/defined-configuration" fixture404
      (.obj [("status", .int 404), ("reason", .str "Not Found")]) rfl rfl rfl rfl).1, rfl⟩

/-- C4 (code bug, evaluated at the failing input): the PATCH no-change error
in the list-shaped error-detail encoding passes through unchanged as an error
— the message extraction leaves `msg` empty because the list-shaped fallback is
guarded by `_raw_data not in json_data`, which is false for every parsed
response — while the single-dict encoding is rewritten to the
empty-collection success as the claim describes. -/
theorem patch_no_change_list_not_rewritten :
    api_request_post "PATCH" "/rest/running/brocade-interface/fibrechannel" patchNoChangeList =
      .ok patchNoChangeList ∧
    is_error (some patchNoChangeList) = true ∧
    msg_extract patchNoChangeList = .ok (.str "") ∧
    api_request_post "PATCH" "/rest/running/brocade-interface/fibrechannel" patchNoChangeDict =
      .ok (.obj [("cmd", .list [])]) :=
  ⟨rfl, rfl, rfl, rfl⟩

/-- C5 (code bug, evaluated at the failing input): when sending the login
request fails with any transport exception (connection refused, host
unreachable; the timeout handler ends in the same expression), login returns
`None` — `create_error(...).update(ip_addr=ip_addr)` evaluates to `None`
because `dict.update` returns `None` — rather than the structured
"not found / connection refused" Normalized Result the claim requires. -/
theorem login_send_failure_returns_none (u p ip : String) (e : PyExn) (g : RespOutcome) :
    login u p ip none ⟨.raises e, g⟩ = .ok none := rfl

/-- C6 counterexample: an unexpected (non-timeout) transport error while
receiving the response escapes `_api_request` — the string-literal raise —
instead of being converted into a uniform Normalized Result, refuting the
claim that no exception ever escapes to the caller. -/
theorem api_request_exception_escapes :
    _api_request sessionRecvFail "/rest/running/brocade-fabric/fabric-switch" "GET" (.obj []) =
      .error "TypeError: exceptions must derive from BaseException" := rfl

/-- C6 amended: exceptions raised while sending the request are converted to
the 404 Not Found result, and a TimeoutError while receiving becomes the 408
result (decode failures are absorbed into 500-class results inside
`basic_api_parse`), but any other exception raised while receiving the
response is re-raised (the string-literal raise) rather than converted. -/
theorem api_request_exception_policy (s : Session) (uri method : String) (content : JVal)
    (hcred : s.credential.isSome = true) :
    (∀ e, s.conn.req = .raises e →
      ∃ j, _api_request s uri method content = .ok j ∧ obj_status j = .int HTTP_NOT_FOUND) ∧
    (∀ e, s.conn.req = .ok → s.conn.getresp = .raises e → e.name = "TimeoutError" →
      ∃ j, _api_request s uri method content = .ok j ∧ obj_status j = .int HTTP_REQUEST_TIMEOUT) ∧
    (∀ e, s.conn.req = .ok → s.conn.getresp = .raises e → e.name ≠ "TimeoutError" →
      _api_request s uri method content =
        .error "TypeError: exceptions must derive from BaseException") := by
  obtain ⟨cred, ⟨req, gr⟩, ip, um⟩ := s
  cases cred with
  | none => simp at hcred
  | some c =>
      refine ⟨?_, ?_, ?_⟩
      · intro e he
        simp only at he
        subst he
        cases ip with
        | none => exact ⟨_, rfl, rfl⟩
        | some ipv => exact ⟨_, rfl, rfl⟩
      · intro e hreq hresp hname
        simp only at hreq hresp
        subst hreq
        subst hresp
        have hb : (e.name == "TimeoutError") = true := by simp [hname]
        refine ⟨create_error (.int HTTP_REQUEST_TIMEOUT)
          (.str ("Time out processing " ++ uri ++ ". Method: " ++ method)) (.str ""), ?_, rfl⟩
        simp [_api_request, hb]
      · intro e hreq hresp hname
        simp only at hreq hresp
        subst hreq
        subst hresp
        simp [_api_request, hname]

/-- C6 witness: at a concrete session whose send raises, the dispatcher
returns the converted 404 Not Found result. -/
theorem api_request_exception_policy_witness :
    sessionSendFail.credential.isSome = true ∧
    ∃ j, _api_request sessionSendFail "/rest/x" "GET" (.obj []) = .ok j ∧
      obj_status j = .int HTTP_NOT_FOUND :=
  ⟨rfl, (api_request_exception_policy sessionSendFail "/rest/x" "GET" (.obj []) rfl).1
    ⟨"ConnectionRefusedError", "refused"⟩ rfl⟩

/-- C7 counterexample: resolving an endpoint name absent from both catalog
lookups yields the best-guess path but emits zero log entries — not the
exactly-one warning the claim requires. -/
theorem format_uri_unknown_no_warning :
    (format_uri sessionEmptyMap "fake-endpoint" none).1 = .ok (.str "/rest/fake-endpoint") ∧
    (format_uri sessionEmptyMap "fake-endpoint" none).2.length = 0 :=
  ⟨rfl, rfl⟩

/-- C7 amended: for a catalog entry that requires a fabric id, resolving with
fabric id 7 yields the catalog path with `?vf-id=7` appended, and resolving
with no fabric id yields the catalog path unchanged (no query suffix); for a
name absent from both catalog lookups, resolution returns the non-None
best-guess path `/rest/` + name built by simple concatenation and emits no
log entry (the `UNKNOWN URI` warning is logged by catalog construction and
the disabled OPTIONS method check, not by the resolver). -/
theorem format_uri_resolution (s : Session) (name duri : String) (d : JVal)
    (s2 : Session) (name2 : String)
    (hfound : session_cntl s name = (some d, []))
    (hfid : pyIndexS d "fid" = .ok (.bool true))
    (huri : pyIndexS d "uri" = .ok (.str duri))
    (hnoq : py_in "?" duri = false)
    (hmiss : session_cntl s2 name2 = (none, [])) :
    (∃ p, format_uri s name (some 7) = (.ok (.str (p ++ "?vf-id=7")), [])) ∧
    (format_uri s name none = (.ok (.str duri), []) ∧ py_in "?" duri = false) ∧
    format_uri s2 name2 none = (.ok (.str ("/rest/" ++ name2)), []) := by
  have hv7 : vfid_to_str (some 7) = "?vf-id=7" := rfl
  refine ⟨⟨duri, ?_⟩, ⟨?_, hnoq⟩, ?_⟩
  · simp [format_uri, hfound, hfid, huri, exbind_ok, hv7]
  · simp [format_uri, hfound, hfid, huri, exbind_ok, vfid_to_str]
  · simp [format_uri, hmiss]

/-- C7 witness: the concrete catalog fixture — the fibrechannel-switch
endpoint requires a fabric id — resolves with and without a fabric id as
amended, and the unknown name resolves to the concatenated best guess with no
log entry. -/
theorem format_uri_resolution_witness :
    session_cntl sessionWithMap "running/brocade-fibrechannel-switch/fibrechannel-switch" =
      (some (.obj [("uri", .str "/rest/running/brocade-fibrechannel-switch/fibrechannel-switch"),
                   ("fid", .bool true)]), []) ∧
    (∃ p, format_uri sessionWithMap "running/brocade-fibrechannel-switch/fibrechannel-switch"
        (some 7) = (.ok (.str (p ++ "?vf-id=7")), [])) ∧
    format_uri sessionEmptyMap "unknown-endpoint" none =
      (.ok (.str "/rest/unknown-endpoint"), []) := by
  refine ⟨rfl, ?_, ?_⟩
  · exact (format_uri_resolution sessionWithMap
      "running/brocade-fibrechannel-switch/fibrechannel-switch"
      "/rest/running/brocade-fibrechannel-switch/fibrechannel-switch"
      (.obj [("uri", .str "/rest/running/brocade-fibrechannel-switch/fibrechannel-switch"),
             ("fid", .bool true)])
      sessionEmptyMap "unknown-endpoint" rfl rfl rfl rfl rfl).1
  · exact (format_uri_resolution sessionWithMap
      "running/brocade-fibrechannel-switch/fibrechannel-switch"
      "/rest/running/brocade-fibrechannel-switch/fibrechannel-switch"
      (.obj [("uri", .str "/rest/running/brocade-fibrechannel-switch/fibrechannel-switch"),
             ("fid", .bool true)])
      sessionEmptyMap "unknown-endpoint" rfl rfl rfl rfl rfl).2.2

/-- C8 (code bug): for every login call supplying a string security mode other
than `none` or `self`, login raises `TypeError` — the intended fail-fast
return `create_error(400, Unsupported login, str(http_access,
errors=ignore))` calls `str` on a `str` with an `errors` keyword — instead
of returning the Bad Request-shaped Normalized Result without raising. -/
theorem login_bad_mode_raises (u p ip m : String) (c : Conn)
    (h1 : m ≠ "none") (h2 : m ≠ "self") :
    login u p ip (some m) c = .error "TypeError: decoding str is not supported" := by
  simp [login, h1, h2]

/-- C8 witness: the concrete unsupported mode `foo` makes login raise. -/
theorem login_bad_mode_raises_witness :
    ("foo" : String) ≠ "none" ∧ ("foo" : String) ≠ "self" ∧
    login "admin" "pw" "10.0.0.1" (some "foo") ⟨.ok, .raises ⟨"X", ""⟩⟩ =
      .error "TypeError: decoding str is not supported" :=
  ⟨by decide, by decide,
    login_bad_mode_raises "admin" "pw" "10.0.0.1" "foo" ⟨.ok, .raises ⟨"X", ""⟩⟩
      (by decide) (by decide)⟩

/-- C9 counterexample: a transport error while sending the logout request
propagates to the caller instead of being swallowed into a best-effort
Normalized Result, refuting the claim that logout is unconditionally safe. -/
theorem logout_send_failure_escapes :
    logout sessionSendFail = .error "ConnectionRefusedError" := rfl

/-- C9 amended: logout performs no exception handling of its own — a
transport error raised while sending the logout request, receiving the
response, or reading its body propagates to the caller; only when transport
succeeds is the best-effort parse applied, and the raw-bytes body then makes
`basic_api_parse` return the empty dict, a non-error result. -/
theorem logout_propagates_transport_errors (s : Session) :
    (∀ e, s.conn.req = .raises e → logout s = .error e.name) ∧
    (∀ e, s.conn.req = .ok → s.conn.getresp = .raises e → logout s = .error e.name) ∧
    (∀ e r, s.conn.req = .ok → s.conn.getresp = .ok r → r.read = .raises e →
      logout s = .error e.name) ∧
    (∀ r b, s.conn.req = .ok → s.conn.getresp = .ok r → r.read = .ok b →
      logout s = .ok (.obj []) ∧ is_error (some (.obj [])) = false) := by
  obtain ⟨cred, ⟨req, gr⟩, ip, um⟩ := s
  refine ⟨?_, ?_, ?_, ?_⟩
  · intro e he
    simp only at he
    subst he
    rfl
  · intro e hreq hresp
    simp only at hreq hresp
    subst hreq
    subst hresp
    rfl
  · intro e r hreq hresp hread
    simp only at hreq hresp
    subst hreq
    subst hresp
    simp [logout, hread]
  · intro r b hreq hresp hread
    simp only at hreq hresp
    subst hreq
    subst hresp
    exact ⟨by simp [logout, hread, basic_api_parse], rfl⟩

/-- C9 witness: at a concrete session whose body read raises after a
successful receive, logout propagates the read error. -/
theorem logout_propagates_witness :
    sessionReadFail.conn.req = .ok ∧
    logout sessionReadFail = .error "BrokenPipeError" :=
  ⟨rfl, (logout_propagates_transport_errors sessionReadFail).2.2.1
    ⟨"BrokenPipeError", "pipe"⟩ ⟨200, "OK", .raises ⟨"BrokenPipeError", "pipe"⟩, none, none⟩
    rfl rfl rfl⟩

end Brcdapi
